import Mathlib

/-!
Shallow embedding of `src/auth/mod.rs` from the `async_rawr` crate.

Modelling conventions:
* The HTTP transport is a parameter: a network call's outcome is an
  `Option HttpResponse`, where `none` is a transport-level failure
  (`reqwest` returning `Err`) and `some r` is a received response.
* `r.statusSuccess` reflects `response.status().into_result()`: the call
  errs with an HTTP-status error exactly when the status is not a
  success status.
* `r.tokenBody` reflects `response.json::<TokenResponseData>()`:
  `none` is a JSON decode failure.
* Rust's `&mut self` methods become functions returning the new state
  together with the `Result` value; an early `return Err` leaves the
  state component at its input value, exactly as the Rust code leaves
  `self` untouched before its first assignment.
* A panic (`Option::unwrap` on `None`) is modelled by the whole
  operation returning `none`.
* `u128` timestamps are modelled as `Nat`; the additions involved stay
  far below `2^128`, so wraparound is immaterial and not modelled.
* `reqwest::HeaderMap` is modelled as an association list; `insert`
  replaces every previous value stored under the name, as the library
  method does.
-/

/-- The decoded body of the token-exchange response
(`TokenResponseData` with fields `access_token` and `expires_in`,
used by `PasswordAuthenticator::login`). -/
structure TokenResponseData where
  access_token : String
  expires_in : Nat
deriving Repr, DecidableEq

/-- The error taxonomy surfaced by the authenticator operations:
transport failure, non-success HTTP status (carrying the code), or a
JSON decode failure of the token response. -/
inductive AuthError where
  | transport : AuthError
  | httpStatus : Nat → AuthError
  | decode : AuthError
deriving Repr, DecidableEq

/-- A received HTTP response, as far as the authenticator inspects it:
whether the status is a success status, the numeric status code, and
what `json::<TokenResponseData>()` would decode from the body. -/
structure HttpResponse where
  statusSuccess : Bool
  statusCode : Nat
  tokenBody : Option TokenResponseData
deriving Repr, DecidableEq

/-- `reqwest::HeaderMap`, modelled as an association list from header
names to values. -/
abbrev HeaderMap := List (String × String)

/-- `HeaderMap::insert`: stores `v` under name `k`, removing every
value previously stored under `k`. -/
def HeaderMap.insertHeader (h : HeaderMap) (k v : String) : HeaderMap :=
  match h with
  | [] => [(k, v)]
  | p :: rest =>
    if p.1 = k then HeaderMap.insertHeader rest k v
    else p :: HeaderMap.insertHeader rest k v

/-- First (and, after `insertHeader`, only) value stored under a name. -/
def HeaderMap.lookupHeader : HeaderMap → String → Option String
  | [], _ => none
  | (k, v) :: rest, key => if k = key then some v else HeaderMap.lookupHeader rest key

/-- `AnonymousAuthenticator`: the stateless no-op strategy. -/
structure AnonymousAuthenticator where
deriving Repr, DecidableEq

/-- `AnonymousAuthenticator::new` (the `Arc<Mutex<..>>` wrapper is the
shared handle; the state it protects is the bare structure). -/
def AnonymousAuthenticator.new : AnonymousAuthenticator := {}

/-- `AnonymousAuthenticator::login`: returns `Ok(true)`, no network call. -/
def AnonymousAuthenticator.login (a : AnonymousAuthenticator) :
    AnonymousAuthenticator × Except AuthError Bool :=
  (a, Except.ok true)

/-- `AnonymousAuthenticator::logout`: returns `Ok(())`, no network call. -/
def AnonymousAuthenticator.logout (a : AnonymousAuthenticator) :
    AnonymousAuthenticator × Except AuthError Unit :=
  (a, Except.ok ())

/-- `AnonymousAuthenticator::headers`: does nothing to the map. -/
def AnonymousAuthenticator.headers (_a : AnonymousAuthenticator) (h : HeaderMap) :
    HeaderMap :=
  h

/-- `AnonymousAuthenticator::oauth`: `false`. -/
def AnonymousAuthenticator.oauth (_a : AnonymousAuthenticator) : Bool :=
  false

/-- `AnonymousAuthenticator::needs_token_refresh`: always `false`. -/
def AnonymousAuthenticator.needs_token_refresh (_a : AnonymousAuthenticator) : Bool :=
  false

/-- `PasswordAuthenticator`: optional token and expiry (milliseconds
since epoch) plus the four immutable credentials. -/
structure PasswordAuthenticator where
  token : Option String
  expiration_time : Option Nat
  client_id : String
  client_secret : String
  username : String
  password : String
deriving Repr, DecidableEq

/-- `PasswordAuthenticator::new`: fresh state with both optional fields
absent and the four credentials copied from the arguments. -/
def PasswordAuthenticator.new (client_id client_secret username password : String) :
    PasswordAuthenticator :=
  { token := none
    expiration_time := none
    client_id := client_id
    client_secret := client_secret
    username := username
    password := password }

/-- `PasswordAuthenticator::login`. `now` is the millisecond clock
sample the Rust code takes via `SystemTime::now()` after a successful
exchange; `resp` is the outcome of the POST to the token endpoint.
The three `?` early returns (transport, status, decode) leave the
state unchanged; on success both `token` and `expiration_time` are
assigned and `Ok(true)` is returned. -/
def PasswordAuthenticator.login (a : PasswordAuthenticator) (now : Nat)
    (resp : Option HttpResponse) : PasswordAuthenticator × Except AuthError Bool :=
  match resp with
  | none => (a, Except.error AuthError.transport)
  | some r =>
    if r.statusSuccess then
      match r.tokenBody with
      | none => (a, Except.error AuthError.decode)
      | some t =>
        ({ a with
            token := some t.access_token
            expiration_time := some (t.expires_in * 1000 + now) },
         Except.ok true)
    else (a, Except.error (AuthError.httpStatus r.statusCode))

/-- `PasswordAuthenticator::logout`. The body is built from
`self.token.to_owned().unwrap()`, so a missing token panics (`none`).
Otherwise: transport failure or non-success status returns the error
with the state untouched; a success status clears both `token` and
`expiration_time` and returns `Ok(())`. -/
def PasswordAuthenticator.logout (a : PasswordAuthenticator)
    (resp : Option HttpResponse) :
    Option (PasswordAuthenticator × Except AuthError Unit) :=
  match a.token with
  | none => none
  | some _tok =>
    some (match resp with
      | none => (a, Except.error AuthError.transport)
      | some r =>
        if r.statusSuccess then
          ({ a with token := none, expiration_time := none }, Except.ok ())
        else (a, Except.error (AuthError.httpStatus r.statusCode)))

/-- `PasswordAuthenticator::headers`: inserts
`authorization: Bearer <token>`; `self.token.to_owned().unwrap()`
panics (`none`) when no token is held. -/
def PasswordAuthenticator.headers (a : PasswordAuthenticator) (h : HeaderMap) :
    Option HeaderMap :=
  match a.token with
  | none => none
  | some t => some (h.insertHeader "authorization" ("Bearer " ++ t))

/-- `PasswordAuthenticator::oauth`: `true`. -/
def PasswordAuthenticator.oauth (_a : PasswordAuthenticator) : Bool :=
  true

/-- `PasswordAuthenticator::needs_token_refresh`: `true` when no
expiry is stored, otherwise `now >= expiration_time`; `now` is the
millisecond clock sample the Rust code takes at the start of the call. -/
def PasswordAuthenticator.needs_token_refresh (a : PasswordAuthenticator)
    (now : Nat) : Bool :=
  match a.expiration_time with
  | none => true
  | some t => decide (now ≥ t)

/-- States of a `PasswordAuthenticator` reachable by any sequence of
construction, `login` and `logout` calls (each completing normally or
with an error; a `logout` that panics yields no successor state;
`headers`, `oauth` and `needs_token_refresh` take `&self` and cannot
change the state). -/
inductive Reachable : PasswordAuthenticator → Prop where
  | new (client_id client_secret username password : String) :
      Reachable (PasswordAuthenticator.new client_id client_secret username password)
  | login (a : PasswordAuthenticator) (now : Nat) (resp : Option HttpResponse)
      (h : Reachable a) : Reachable (a.login now resp).1
  | logout (a a' : PasswordAuthenticator) (resp : Option HttpResponse)
      (r : Except AuthError Unit) (h : Reachable a)
      (hs : a.logout resp = some (a', r)) : Reachable a'

/-! ### Helper lemmas about the header map -/

theorem lookupHeader_insertHeader_self (h : HeaderMap) (k v : String) :
    HeaderMap.lookupHeader (h.insertHeader k v) k = some v := by
  induction h with
  | nil => simp [HeaderMap.insertHeader, HeaderMap.lookupHeader]
  | cons p rest ih =>
      by_cases hpk : p.1 = k
      · simp [HeaderMap.insertHeader, hpk, ih]
      · simp [HeaderMap.insertHeader, HeaderMap.lookupHeader, hpk, ih]

theorem lookupHeader_insertHeader_other (h : HeaderMap) (k v key : String)
    (hne : key ≠ k) :
    HeaderMap.lookupHeader (h.insertHeader k v) key =
      HeaderMap.lookupHeader h key := by
  have hkk : ¬k = key := fun hx => hne hx.symm
  induction h with
  | nil => simp [HeaderMap.insertHeader, HeaderMap.lookupHeader, hkk]
  | cons p rest ih =>
      by_cases hpk : p.1 = k
      · have hpkey : ¬p.1 = key := fun hx => hkk (hpk ▸ hx)
        simp [HeaderMap.insertHeader, HeaderMap.lookupHeader, hpk, hpkey, hkk, ih]
      · by_cases hpkey : p.1 = key
        · simp [HeaderMap.insertHeader, HeaderMap.lookupHeader, hpk, hpkey, hne]
        · simp [HeaderMap.insertHeader, HeaderMap.lookupHeader, hpk, hpkey, ih]

/-! ### Claims -/

/-- C1: for every reachable state of a `PasswordAuthenticator` (after
any sequence of construction, `login`, `logout` calls, each completing
normally or with an error), `token.is_some()` equals
`expiration_time.is_some()`: both fields are set together by a
successful login and cleared together by a successful logout, and no
operation leaves exactly one of them set. -/
theorem password_token_expiry_paired (a : PasswordAuthenticator)
    (h : Reachable a) : a.token.isSome = a.expiration_time.isSome := by
  induction h with
  | new client_id client_secret username password => rfl
  | login a now resp _ ih =>
      cases resp with
      | none => simpa [PasswordAuthenticator.login] using ih
      | some r =>
          by_cases hs : r.statusSuccess
          · cases hb : r.tokenBody with
            | none => simpa [PasswordAuthenticator.login, hs, hb] using ih
            | some t => simp [PasswordAuthenticator.login, hs, hb]
          · simpa [PasswordAuthenticator.login, hs] using ih
  | logout a a' resp r _ hs ih =>
      cases ht : a.token with
      | none => simp [PasswordAuthenticator.logout, ht] at hs
      | some tok =>
          cases resp with
          | none =>
              simp [PasswordAuthenticator.logout, ht] at hs
              exact hs.1 ▸ ih
          | some rr =>
              by_cases hss : rr.statusSuccess
              · simp [PasswordAuthenticator.logout, ht, hss] at hs
                simp [← hs.1]
              · simp [PasswordAuthenticator.logout, ht, hss] at hs
                exact hs.1 ▸ ih

theorem password_token_expiry_paired_witness :
    ((PasswordAuthenticator.new "cid" "csec" "alice" "pw1").login 5
        (some { statusSuccess := true, statusCode := 200,
                tokenBody := some { access_token := "tok123", expires_in := 3600 } })).1.token.isSome =
    ((PasswordAuthenticator.new "cid" "csec" "alice" "pw1").login 5
        (some { statusSuccess := true, statusCode := 200,
                tokenBody := some { access_token := "tok123", expires_in := 3600 } })).1.expiration_time.isSome :=
  password_token_expiry_paired _
    (Reachable.login _ 5 _ (Reachable.new "cid" "csec" "alice" "pw1"))

/-- C2: when `PasswordAuthenticator::login` succeeds (success status
and a decodable JSON body with `access_token` and `expires_in`), it
sets `token` to the returned `access_token`, sets `expiration_time`
to the current time in milliseconds plus `expires_in * 1000`, and
returns `true`. -/
theorem login_success_sets_token_and_expiry (a : PasswordAuthenticator)
    (now : Nat) (r : HttpResponse) (t : TokenResponseData)
    (hs : r.statusSuccess = true) (hb : r.tokenBody = some t) :
    a.login now (some r) =
      ({ a with
          token := some t.access_token
          expiration_time := some (now + t.expires_in * 1000) },
       Except.ok true) := by
  simp [PasswordAuthenticator.login, hs, hb, Nat.add_comm]

theorem login_success_sets_token_and_expiry_witness :
    (PasswordAuthenticator.new "cid" "csec" "alice" "pw1").login 500
        (some { statusSuccess := true, statusCode := 200,
                tokenBody := some { access_token := "tok123", expires_in := 3600 } }) =
      ({ PasswordAuthenticator.new "cid" "csec" "alice" "pw1" with
          token := some "tok123"
          expiration_time := some (500 + 3600 * 1000) },
       Except.ok true) :=
  login_success_sets_token_and_expiry _ 500 _ _ rfl rfl

/-- C3: `needs_token_refresh` returns `true` iff `expiration_time` is
absent or `now >= expiration_time`; at exactly `now = expiration_time`
it returns `true` (boundary inclusive on the expiry side), and for any
`now < expiration_time` it returns `false`. -/
theorem needs_token_refresh_iff (a : PasswordAuthenticator) (now : Nat) :
    (a.needs_token_refresh now = true ↔
      a.expiration_time = none ∨ ∃ T, a.expiration_time = some T ∧ T ≤ now) ∧
    (∀ T, a.expiration_time = some T → a.needs_token_refresh T = true) ∧
    (∀ T, a.expiration_time = some T → now < T →
      a.needs_token_refresh now = false) := by
  refine ⟨?_, ?_, ?_⟩
  · cases he : a.expiration_time with
    | none => simp [PasswordAuthenticator.needs_token_refresh, he]
    | some T => simp [PasswordAuthenticator.needs_token_refresh, he]
  · intro T hT
    simp [PasswordAuthenticator.needs_token_refresh, hT]
  · intro T hT hlt
    simp [PasswordAuthenticator.needs_token_refresh, hT]
    omega

theorem needs_token_refresh_iff_witness :
    ({ PasswordAuthenticator.new "c" "s" "u" "p" with
        token := some "tok", expiration_time := some 1000 } :
      PasswordAuthenticator).needs_token_refresh 1000 = true ∧
    ({ PasswordAuthenticator.new "c" "s" "u" "p" with
        token := some "tok", expiration_time := some 1000 } :
      PasswordAuthenticator).needs_token_refresh 999 = false :=
  ⟨(needs_token_refresh_iff _ 1000).2.1 1000 rfl,
   (needs_token_refresh_iff _ 999).2.2 1000 rfl (by decide)⟩

/-- C4: with a token present, `logout` clears `token` and
`expiration_time` iff the revocation call succeeds: on a success
status both fields become `None` and `Ok` is returned; on a transport
failure or non-success status the error is returned and the state is
exactly the state before the call. -/
theorem logout_clears_iff_success (a : PasswordAuthenticator) (tok : String)
    (ht : a.token = some tok) :
    (∀ r : HttpResponse, r.statusSuccess = true →
      a.logout (some r) =
        some ({ a with token := none, expiration_time := none },
          Except.ok ())) ∧
    (a.logout none = some (a, Except.error AuthError.transport)) ∧
    (∀ r : HttpResponse, r.statusSuccess = false →
      a.logout (some r) =
        some (a, Except.error (AuthError.httpStatus r.statusCode))) := by
  refine ⟨?_, ?_, ?_⟩
  · intro r hr
    simp [PasswordAuthenticator.logout, ht, hr]
  · simp [PasswordAuthenticator.logout, ht]
  · intro r hr
    simp [PasswordAuthenticator.logout, ht, hr]

theorem logout_clears_iff_success_witness :
    ({ PasswordAuthenticator.new "c" "s" "u" "p" with
        token := some "tok123", expiration_time := some 7 } :
      PasswordAuthenticator).logout
        (some { statusSuccess := false, statusCode := 500, tokenBody := none }) =
      some ({ PasswordAuthenticator.new "c" "s" "u" "p" with
                token := some "tok123", expiration_time := some 7 },
        Except.error (AuthError.httpStatus 500)) :=
  (logout_clears_iff_success _ "tok123" rfl).2.2
    { statusSuccess := false, statusCode := 500, tokenBody := none } rfl

/-- C5: `login` is all-or-nothing: whenever it returns an error (for
any reason: transport failure, non-success status, or decode failure),
the state is exactly the state before the call. -/
theorem login_error_leaves_state (a a' : PasswordAuthenticator) (now : Nat)
    (resp : Option HttpResponse) (e : AuthError)
    (h : a.login now resp = (a', Except.error e)) : a' = a := by
  cases resp with
  | none =>
      simp [PasswordAuthenticator.login] at h
      exact h.1.symm
  | some r =>
      by_cases hs : r.statusSuccess
      · cases hb : r.tokenBody with
        | none =>
            simp [PasswordAuthenticator.login, hs, hb] at h
            exact h.1.symm
        | some t => simp [PasswordAuthenticator.login, hs, hb] at h
      · simp [PasswordAuthenticator.login, hs] at h
        exact h.1.symm

theorem login_error_leaves_state_witness :
    ((PasswordAuthenticator.new "c" "s" "u" "p").login 0 none).1 =
      PasswordAuthenticator.new "c" "s" "u" "p" :=
  login_error_leaves_state _ _ 0 none AuthError.transport rfl

/-- C6: calling `logout` or `headers` while `token` is `None` is an
unchecked precondition violation: no check is performed and the
`unwrap` of the absent token aborts (modelled as `none`) instead of
returning a typed error; with a token present, the aborting branch is
unreachable (both operations return a value). -/
theorem missing_token_aborts (a : PasswordAuthenticator) :
    (a.token = none →
      (∀ resp, a.logout resp = none) ∧ (∀ h, a.headers h = none)) ∧
    (∀ tok, a.token = some tok →
      (∀ resp, (a.logout resp).isSome = true) ∧
      (∀ h, (a.headers h).isSome = true)) := by
  constructor
  · intro ht
    constructor
    · intro resp
      simp [PasswordAuthenticator.logout, ht]
    · intro h
      simp [PasswordAuthenticator.headers, ht]
  · intro tok ht
    constructor
    · intro resp
      simp [PasswordAuthenticator.logout, ht]
    · intro h
      simp [PasswordAuthenticator.headers, ht]

theorem missing_token_aborts_witness :
    (PasswordAuthenticator.new "c" "s" "u" "p").logout none = none ∧
    (PasswordAuthenticator.new "c" "s" "u" "p").headers [] = none :=
  ⟨((missing_token_aborts (PasswordAuthenticator.new "c" "s" "u" "p")).1 rfl).1 none,
   ((missing_token_aborts (PasswordAuthenticator.new "c" "s" "u" "p")).1 rfl).2 []⟩

/-- C7: with `token = Some t`, `headers h` sets the `authorization`
entry to `"Bearer " ++ t` and changes no other entry: looking up any
name other than `authorization` in the result gives exactly what the
input map gave (so nothing else is added, removed or rewritten). -/
theorem headers_sets_bearer_and_frames (a : PasswordAuthenticator) (t : String)
    (ht : a.token = some t) (h m : HeaderMap)
    (hm : a.headers h = some m) :
    HeaderMap.lookupHeader m "authorization" = some ("Bearer " ++ t) ∧
    ∀ k, k ≠ "authorization" →
      HeaderMap.lookupHeader m k = HeaderMap.lookupHeader h k := by
  have hm' : m = h.insertHeader "authorization" ("Bearer " ++ t) := by
    simp [PasswordAuthenticator.headers, ht] at hm
    exact hm.symm
  subst hm'
  exact ⟨lookupHeader_insertHeader_self h "authorization" ("Bearer " ++ t),
    fun k hk => lookupHeader_insertHeader_other h "authorization" ("Bearer " ++ t) k hk⟩

theorem headers_sets_bearer_and_frames_witness :
    HeaderMap.lookupHeader
      (HeaderMap.insertHeader [("user-agent", "ua1")] "authorization" "Bearer tok123")
      "authorization" = some "Bearer tok123" ∧
    HeaderMap.lookupHeader
      (HeaderMap.insertHeader [("user-agent", "ua1")] "authorization" "Bearer tok123")
      "user-agent" = HeaderMap.lookupHeader [("user-agent", "ua1")] "user-agent" :=
  ⟨(headers_sets_bearer_and_frames
      ({ PasswordAuthenticator.new "c" "s" "u" "p" with
          token := some "tok123", expiration_time := some 7 })
      "tok123" rfl [("user-agent", "ua1")] _ rfl).1,
   (headers_sets_bearer_and_frames
      ({ PasswordAuthenticator.new "c" "s" "u" "p" with
          token := some "tok123", expiration_time := some 7 })
      "tok123" rfl [("user-agent", "ua1")] _ rfl).2 "user-agent" (by decide)⟩

/-- C8: every operation of `AnonymousAuthenticator` is trivial and
state-independent: `login` returns `Ok(true)` and `logout` returns
`Ok(())` with no network call and no state change, `headers` leaves
the caller's map unchanged, `oauth` is `false` and
`needs_token_refresh` is `false` — regardless of prior calls, since
the strategy carries no state at all. -/
theorem anonymous_trivial (a : AnonymousAuthenticator) :
    a.login = (a, Except.ok true) ∧
    a.logout = (a, Except.ok ()) ∧
    (∀ h : HeaderMap, a.headers h = h) ∧
    a.oauth = false ∧
    a.needs_token_refresh = false :=
  ⟨rfl, rfl, fun _ => rfl, rfl, rfl⟩

/-- C9: neither `login` nor `logout` ever modifies `client_id`,
`client_secret`, `username` or `password`: after either operation,
successful or failed, the four credential fields are exactly those of
the state before the call. -/
theorem credentials_immutable (a : PasswordAuthenticator) (now : Nat)
    (resp : Option HttpResponse) :
    ((a.login now resp).1.client_id = a.client_id ∧
     (a.login now resp).1.client_secret = a.client_secret ∧
     (a.login now resp).1.username = a.username ∧
     (a.login now resp).1.password = a.password) ∧
    (∀ a' r, a.logout resp = some (a', r) →
      a'.client_id = a.client_id ∧ a'.client_secret = a.client_secret ∧
      a'.username = a.username ∧ a'.password = a.password) := by
  constructor
  · cases resp with
    | none => simp [PasswordAuthenticator.login]
    | some r =>
        by_cases hs : r.statusSuccess
        · cases hb : r.tokenBody with
          | none => simp [PasswordAuthenticator.login, hs, hb]
          | some t => simp [PasswordAuthenticator.login, hs, hb]
        · simp [PasswordAuthenticator.login, hs]
  · intro a' r hlo
    cases ht : a.token with
    | none => simp [PasswordAuthenticator.logout, ht] at hlo
    | some tok =>
        cases resp with
        | none =>
            simp [PasswordAuthenticator.logout, ht] at hlo
            simp [← hlo.1]
        | some rr =>
            by_cases hss : rr.statusSuccess
            · simp [PasswordAuthenticator.logout, ht, hss] at hlo
              simp [← hlo.1]
            · simp [PasswordAuthenticator.logout, ht, hss] at hlo
              simp [← hlo.1]

theorem credentials_immutable_witness :
    (((PasswordAuthenticator.new "cid" "csec" "alice" "pw1").login 5
        (some { statusSuccess := true, statusCode := 200,
                tokenBody := some { access_token := "tok123", expires_in := 3600 } })).1.client_id =
      (PasswordAuthenticator.new "cid" "csec" "alice" "pw1").client_id) ∧
    (({ PasswordAuthenticator.new "cid" "csec" "alice" "pw1" with
          token := some "tok123", expiration_time := some 7 } :
        PasswordAuthenticator).logout
        (some { statusSuccess := true, statusCode := 204, tokenBody := none })).elim
      True (fun p => p.1.username = "alice") :=
  ⟨(credentials_immutable (PasswordAuthenticator.new "cid" "csec" "alice" "pw1") 5
      (some { statusSuccess := true, statusCode := 200,
              tokenBody := some { access_token := "tok123", expires_in := 3600 } })).1.1,
   ((credentials_immutable
      ({ PasswordAuthenticator.new "cid" "csec" "alice" "pw1" with
          token := some "tok123", expiration_time := some 7 }) 0
      (some { statusSuccess := true, statusCode := 204, tokenBody := none })).2
      _ _ rfl).2.2.1⟩
